import Mathlib

/-!
Shallow embedding of the connection registry and channel-multiplexing
router of `src/server.js` (a Node.js WebSocket relay).

Modelling conventions:
* A JS `Map` of connection records (`const connections = new Map()`,
  keyed by the numeric connection id) is a `List ConnectionInfo`;
  `Map.get` is `List.find?` on the id, `Map.delete` is a filter, and
  in-place mutation of a looked-up record is a pointwise `List.map`.
* `ws.readyState === WebSocket.OPEN` is the Boolean field `isOpen`.
* A JS `Set` of channel names is a `Finset (Option String)`; `none`
  stands for the JS value `undefined` (the code inserts
  `message.channel` into the set without checking it is present).
* `Date.now()` is an explicit `now : Nat` argument.
* Outbound `ws.send(JSON.stringify(...))` calls are recorded as `Send`
  values (target connection id and the event object); the functions
  return the list of sends they perform, in program order.
-/

/-- A decoded inbound wire message (the result of `JSON.parse`), with the
fields the handler in `server.js` reads: `type`, `channel`, `data`,
`targetId`.  Absent fields are `none`. -/
structure InMessage where
  type : String
  channel : Option String := none
  data : String := ""
  targetId : Option Nat := none
deriving DecidableEq, Repr

/-- An outbound event object, one constructor per `type` the server
emits (`server.js` lines 34-39, 67-72, 87-91, 101-105, 113-118,
126-131, 137-140, 145-149, 153-157, 199-202). -/
inductive Event where
  | connection (connectionId : Nat) (message : String) (timestamp : Nat)
  | subscribed (channel : Option String) (timestamp : Nat)
  | unsubscribed (channel : Option String) (timestamp : Nat)
  | channelMessage (channel : String) (connectionId : Nat) (data : String) (timestamp : Nat)
  | directMessage (fromId : Nat) (data : String) (timestamp : Nat)
  | pong (timestamp : Nat)
  | echo (original : InMessage) (timestamp : Nat)
  | errorMsg (message : String) (timestamp : Nat)
  | broadcastMsg (channel : String) (message : String) (timestamp : Nat)
  | heartbeat (timestamp : Nat)
deriving DecidableEq, Repr

/-- One outbound transport write: the id of the connection whose socket
is written, and the event written. -/
structure Send where
  target : Nat
  event : Event
deriving DecidableEq, Repr

/-- The per-connection record stored in the `connections` map
(`server.js` lines 53-59): id, socket openness (`ws.readyState`),
subscribed channel set, creation time.  The client ip is irrelevant to
routing and omitted. -/
structure ConnectionInfo where
  id : Nat
  isOpen : Bool
  channels : Finset (Option String)
  connectedAt : Nat
deriving DecidableEq

/-- The module-level mutable state of `server.js`: the `connections`
map (line 15) and `connectionIdCounter` (line 16). -/
structure ServerState where
  connections : List ConnectionInfo
  counter : Nat
deriving DecidableEq

/-- `connections.get(id)` (`Map.get` on the numeric key; every stored
record has `record.id` equal to its key). -/
def lookupConn (conns : List ConnectionInfo) (id : Nat) : Option ConnectionInfo :=
  conns.find? (fun c => c.id == id)

/-- `connections.get(message.targetId)`: a `Map.get` with an
`undefined` key finds nothing. -/
def targetLookup (conns : List ConnectionInfo) (targetId : Option Nat) : Option ConnectionInfo :=
  match targetId with
  | some tid => lookupConn conns tid
  | none => none

/-- In-place mutation of the record stored under key `cid`: the JS code
looks the record up and mutates it through the reference, leaving every
record under a different key untouched. -/
def updateConn (conns : List ConnectionInfo) (cid : Nat) (f : ConnectionInfo → ConnectionInfo) :
    List ConnectionInfo :=
  conns.map (fun c => if c.id = cid then f c else c)

/-- `message.channel || 'default'` (line 112): JS `||` replaces both an
absent channel and the empty string (falsy) by `'default'`. -/
def jsOrDefault : Option String → String
  | none => "default"
  | some c => if c = "" then "default" else c

/-- The per-recipient guard of `broadcastToChannel` (lines 180-182):
`conn.id !== excludeId && conn.channels.has(channel) && conn.ws.readyState === OPEN`,
tested in the order `isNotExcluded && isSubscribed && isOpen` (line 186). -/
def qualifies (channel : String) (excludeId : Option Nat) (c : ConnectionInfo) : Bool :=
  decide (excludeId ≠ some c.id) && decide ((some channel) ∈ c.channels) && c.isOpen

/-- `function broadcastToChannel(channel, message, excludeId = null)`
(lines 175-193): iterate the `connections` map; for every record
passing `qualifies`, write `message` to its socket and increment
`sent`; return `sent`.  The result is the final `sent` counter paired
with the list of writes performed, in iteration order. -/
def broadcastToChannel (conns : List ConnectionInfo) (channel : String) (ev : Event)
    (excludeId : Option Nat) : Nat × List Send :=
  match conns with
  | [] => (0, [])
  | c :: rest =>
    let r := broadcastToChannel rest channel ev excludeId
    if qualifies channel excludeId c then (r.1 + 1, ⟨c.id, ev⟩ :: r.2) else r

/-- `broadcastToChannel` refined with an explicit transport outcome
`wOk : Nat → Bool` saying whether the write to a given connection's
socket succeeds.  The source performs `conn.ws.send(...); sent++` with
no per-recipient error handling: a `ws` write failure on an OPEN socket
surfaces asynchronously, so the synchronous loop increments `sent` and
moves to the next record whatever the write's fate.  The `Send` list
here records only the writes that succeed. -/
def broadcastToChannelF (wOk : Nat → Bool) (conns : List ConnectionInfo) (channel : String)
    (ev : Event) (excludeId : Option Nat) : Nat × List Send :=
  match conns with
  | [] => (0, [])
  | c :: rest =>
    let r := broadcastToChannelF wOk rest channel ev excludeId
    if qualifies channel excludeId c then
      (r.1 + 1, (if wOk c.id then [Send.mk c.id ev] else []) ++ r.2)
    else r

/-- `wss.on('connection', ...)` (lines 48-72): allocate
`++connectionIdCounter`, store a fresh record subscribed to
`{'default'}` with `connectedAt = Date.now()`, and send the welcome
event to the new connection's socket. -/
def handleConnection (st : ServerState) (now : Nat) : ServerState × List Send :=
  let connectionId := st.counter + 1
  let info : ConnectionInfo :=
    { id := connectionId, isOpen := true, channels := {some "default"}, connectedAt := now }
  ({ connections := st.connections ++ [info], counter := connectionId },
   [⟨connectionId, Event.connection connectionId
      "Connected to WebSocket server with multiplexing support" now⟩])

/-- `ws.on('message', ...)` for a successfully parsed message
(lines 81-150): dispatch on `message.type`; the five recognized cases
and the echo fallback.  `connectionId` is the closure variable of the
connection the message arrived on; `ws` in the source is that same
connection's socket, so acks/replies target `connectionId`. -/
def handleMessage (st : ServerState) (connectionId : Nat) (msg : InMessage) (now : Nat) :
    ServerState × List Send :=
  if msg.type = "subscribe" then
    match lookupConn st.connections connectionId with
    | some _ =>
      ({ st with connections :=
           (updateConn st.connections connectionId
             (fun c => { c with channels := insert msg.channel c.channels })) },
       [⟨connectionId, Event.subscribed msg.channel now⟩])
    | none => (st, [])
  else if msg.type = "unsubscribe" then
    match lookupConn st.connections connectionId with
    | some _ =>
      ({ st with connections :=
           (updateConn st.connections connectionId
             (fun c => { c with channels := c.channels.erase msg.channel })) },
       [⟨connectionId, Event.unsubscribed msg.channel now⟩])
    | none => (st, [])
  else if msg.type = "message" then
    let channel := jsOrDefault msg.channel
    (st, (broadcastToChannel st.connections channel
            (Event.channelMessage channel connectionId msg.data now) none).2)
  else if msg.type = "direct" then
    match targetLookup st.connections msg.targetId with
    | some t =>
      if t.isOpen then (st, [⟨t.id, Event.directMessage connectionId msg.data now⟩])
      else (st, [])
    | none => (st, [])
  else if msg.type = "ping" then
    (st, [⟨connectionId, Event.pong now⟩])
  else
    (st, [⟨connectionId, Event.echo msg now⟩])

/-- `ws.on('close', ...)` (lines 162-166): `connections.delete(connectionId)`. -/
def handleClose (st : ServerState) (connectionId : Nat) : ServerState :=
  { st with connections := st.connections.filter (fun c => c.id ≠ connectionId) }

/-- `ws.on('error', ...)` (lines 169-171): the handler only logs the
error; it does not touch the `connections` map or the socket. -/
def handleError (st : ServerState) (_connectionId : Nat) : ServerState :=
  st

/-- `app.post('/api/broadcast')` (lines 28-45): destructure
`{ message, channel = 'default' }` (the default applies only when
`channel` is absent), then send a `broadcast` event to every connection
whose socket is open — the record's channel set is never consulted —
counting each send; respond with the count. -/
def apiBroadcast (conns : List ConnectionInfo) (channel : Option String) (message : String)
    (now : Nat) : Nat × List Send :=
  match conns with
  | [] => (0, [])
  | c :: rest =>
    let r := apiBroadcast rest channel message now
    if c.isOpen then (r.1 + 1, ⟨c.id, Event.broadcastMsg (channel.getD "default") message now⟩ :: r.2)
    else r

/-- The identities returned by a sequence of connection registrations:
each `wss.on('connection')` invocation returns (conceptually) the id it
allocated; `nows` supplies the registration timestamps. -/
def runRegisters (st : ServerState) : List Nat → List Nat
  | [] => []
  | now :: rest =>
    let st' := (handleConnection st now).1
    st'.counter :: runRegisters st' rest

/-! ### Example states used by the witnesses -/

/-- A registry with two live connections, ids 1 and 2, both subscribed
to `gaming` besides `default` (the spec's two-subscriber scenario). -/
def exServer2 : ServerState :=
  { connections :=
      [ { id := 1, isOpen := true, channels := {some "default", some "gaming"}, connectedAt := 100 },
        { id := 2, isOpen := true, channels := {some "default", some "gaming"}, connectedAt := 101 } ],
    counter := 2 }

/-- A registry with a single live connection, id 1, still on the
initial `{'default'}` channel set. -/
def exServer1 : ServerState :=
  { connections := [ { id := 1, isOpen := true, channels := {some "default"}, connectedAt := 100 } ],
    counter := 1 }

/-! ### Characterizations of the fan-out loops -/

/-- `broadcastToChannel` writes exactly to the qualifying records, in
registry order, and its counter is the number of qualifying records. -/
theorem broadcastToChannel_eq (conns : List ConnectionInfo) (ch : String) (ev : Event)
    (ex : Option Nat) :
    broadcastToChannel conns ch ev ex =
      ((conns.filter (qualifies ch ex)).length,
       (conns.filter (qualifies ch ex)).map (fun c => Send.mk c.id ev)) := by
  induction conns with
  | nil => rfl
  | cons c rest ih =>
    by_cases h : qualifies ch ex c
    · simp [broadcastToChannel, List.filter_cons, h, ih]
    · simp [broadcastToChannel, List.filter_cons, h, ih]

/-- `broadcastToChannelF`: the counter still counts every qualifying
record, while the successful writes are those whose transport outcome
is good. -/
theorem broadcastToChannelF_eq (wOk : Nat → Bool) (conns : List ConnectionInfo) (ch : String)
    (ev : Event) (ex : Option Nat) :
    broadcastToChannelF wOk conns ch ev ex =
      ((conns.filter (qualifies ch ex)).length,
       ((conns.filter (qualifies ch ex)).filter (fun c => wOk c.id)).map
         (fun c => Send.mk c.id ev)) := by
  induction conns with
  | nil => rfl
  | cons c rest ih =>
    by_cases h : qualifies ch ex c
    · by_cases hw : wOk c.id
      · simp [broadcastToChannelF, List.filter_cons, h, hw, ih]
      · simp [broadcastToChannelF, List.filter_cons, h, hw, ih]
    · simp [broadcastToChannelF, List.filter_cons, h, ih]

/-- `apiBroadcast` writes exactly to the records with an open socket. -/
theorem apiBroadcast_eq (conns : List ConnectionInfo) (chn : Option String) (m : String)
    (now : Nat) :
    apiBroadcast conns chn m now =
      ((conns.filter (fun c => c.isOpen)).length,
       (conns.filter (fun c => c.isOpen)).map
         (fun c => Send.mk c.id (Event.broadcastMsg (chn.getD "default") m now))) := by
  induction conns with
  | nil => rfl
  | cons c rest ih =>
    by_cases h : c.isOpen
    · simp [apiBroadcast, List.filter_cons, h, ih]
    · simp [apiBroadcast, List.filter_cons, h, ih]

/-- Every write of `broadcastToChannel` targets the id of some record
in the registry it iterates. -/
theorem broadcastToChannel_target_mem (conns : List ConnectionInfo) (ch : String) (ev : Event)
    (ex : Option Nat) (s : Send) (hs : s ∈ (broadcastToChannel conns ch ev ex).2) :
    ∃ c ∈ conns, c.id = s.target := by
  rw [broadcastToChannel_eq] at hs
  rcases List.mem_map.mp hs with ⟨c, hc, hce⟩
  exact ⟨c, List.mem_of_mem_filter hc, by rw [← hce]⟩

/-- Every write of `apiBroadcast` targets the id of some record in the
registry it iterates. -/
theorem apiBroadcast_target_mem (conns : List ConnectionInfo) (chn : Option String) (m : String)
    (now : Nat) (s : Send) (hs : s ∈ (apiBroadcast conns chn m now).2) :
    ∃ c ∈ conns, c.id = s.target := by
  rw [apiBroadcast_eq] at hs
  rcases List.mem_map.mp hs with ⟨c, hc, hce⟩
  exact ⟨c, List.mem_of_mem_filter hc, by rw [← hce]⟩

/-! ### Registration -/

/-- Every identity returned after state `st` is strictly above `st`'s
counter. -/
theorem runRegisters_lt (nows : List Nat) (st : ServerState) :
    ∀ x ∈ runRegisters st nows, st.counter < x := by
  induction nows generalizing st with
  | nil => intro x hx; simp [runRegisters] at hx
  | cons n rest ih =>
    intro x hx
    simp only [runRegisters, handleConnection] at hx
    rcases List.mem_cons.mp hx with h | h
    · omega
    · have := ih _ x h
      simp only at this
      omega

/-! ### The claims -/

/-- C2: For all sequences of register calls within one process
lifetime, the returned connection identities are pairwise distinct and
strictly increasing; no two calls ever return the same identity. -/
theorem C2_register_ids (st : ServerState) (nows : List Nat) :
    List.Pairwise (· < ·) (runRegisters st nows) ∧ (runRegisters st nows).Nodup := by
  have hp : ∀ st' : ServerState, List.Pairwise (· < ·) (runRegisters st' nows) := by
    induction nows with
    | nil => intro st'; simp [runRegisters]
    | cons n rest ih =>
      intro st'
      simp only [runRegisters]
      refine List.pairwise_cons.mpr ⟨?_, ih _⟩
      intro b hb
      have hlt := runRegisters_lt rest _ b hb
      simp only [handleConnection] at hlt ⊢
      omega
  exact ⟨hp st, (hp st).imp fun h => Nat.ne_of_lt h⟩

/-- C3: When a connection is registered, a Connection Record is created
and stored whose channel set is exactly `{'default'}`, and a welcome
event of type `connection` carrying the assigned identity is emitted to
that connection alone. -/
theorem C3_welcome (st : ServerState) (now : Nat) :
    (handleConnection st now).1.connections =
      st.connections ++
        [{ id := st.counter + 1, isOpen := true, channels := {some "default"},
           connectedAt := now }] ∧
    (handleConnection st now).2 =
      [Send.mk (st.counter + 1)
        (Event.connection (st.counter + 1)
          "Connected to WebSocket server with multiplexing support" now)] :=
  ⟨rfl, rfl⟩

/-- C9: The administrative broadcast sends the wrapped `broadcast`
event to every connection whose transport is open, regardless of its
channel-interest set (wiping every channel set leaves the result
unchanged); the channel value only labels the payload, defaulting to
`'default'` when absent; the reported count is the number of open
connections. -/
theorem C9_admin_broadcast (conns : List ConnectionInfo) (chn : Option String) (m : String)
    (now : Nat) :
    (apiBroadcast conns chn m now).1 = (conns.filter (fun c => c.isOpen)).length ∧
    (apiBroadcast conns chn m now).2 =
      (conns.filter (fun c => c.isOpen)).map
        (fun c => Send.mk c.id (Event.broadcastMsg (chn.getD "default") m now)) ∧
    apiBroadcast conns chn m now =
      apiBroadcast (conns.map (fun c => { c with channels := ∅ })) chn m now := by
  refine ⟨by rw [apiBroadcast_eq], by rw [apiBroadcast_eq], ?_⟩
  rw [apiBroadcast_eq, apiBroadcast_eq, List.filter_map, List.map_map]
  simp [Function.comp_def]

/-- C1: `deliverToChannel` writes exactly to the records that are live,
not excluded, and subscribed to the channel — one copy per qualifying
record, tagged with the channel, the sender's id, and a timestamp — and
the returned count equals the number of such records; in particular a
live subscribed sender that is not excluded receives its own message
(the in-handler call passes no exclusion). -/
theorem C1_channel_fanout (st : ServerState) (cid : Nat) (msg : InMessage) (now : Nat)
    (hty : msg.type = "message") :
    (handleMessage st cid msg now).2 =
      (st.connections.filter (qualifies (jsOrDefault msg.channel) none)).map
        (fun c => Send.mk c.id
          (Event.channelMessage (jsOrDefault msg.channel) cid msg.data now)) ∧
    (broadcastToChannel st.connections (jsOrDefault msg.channel)
        (Event.channelMessage (jsOrDefault msg.channel) cid msg.data now) none).1 =
      (st.connections.filter (qualifies (jsOrDefault msg.channel) none)).length ∧
    (∀ c ∈ st.connections, c.id = cid → c.isOpen = true →
      some (jsOrDefault msg.channel) ∈ c.channels →
      Send.mk cid (Event.channelMessage (jsOrDefault msg.channel) cid msg.data now)
        ∈ (handleMessage st cid msg now).2) := by
  have hm : (handleMessage st cid msg now).2 =
      (broadcastToChannel st.connections (jsOrDefault msg.channel)
        (Event.channelMessage (jsOrDefault msg.channel) cid msg.data now) none).2 := by
    simp [handleMessage, hty]
  refine ⟨?_, by rw [broadcastToChannel_eq], ?_⟩
  · rw [hm, broadcastToChannel_eq]
  · intro c hc hcid hopen hmem
    have hq : qualifies (jsOrDefault msg.channel) none c = true := by
      simp [qualifies, hmem, hopen]
    rw [hm, broadcastToChannel_eq]
    refine List.mem_map.mpr ⟨c, List.mem_filter.mpr ⟨hc, hq⟩, ?_⟩
    rw [hcid]

/-- C1 witness: the spec's two-subscriber scenario — connections 1 and
2 subscribed to `gaming`, connection 1 sends `hi`; both receive the
tagged `channel_message`, the sender included, and the count is 2. -/
theorem C1_channel_fanout_witness :
    (handleMessage exServer2 1 { type := "message", channel := some "gaming", data := "hi" } 104).2 =
      [Send.mk 1 (Event.channelMessage "gaming" 1 "hi" 104),
       Send.mk 2 (Event.channelMessage "gaming" 1 "hi" 104)] ∧
    (broadcastToChannel exServer2.connections "gaming"
        (Event.channelMessage "gaming" 1 "hi" 104) none).1 = 2 := by
  have h := C1_channel_fanout exServer2 1
    { type := "message", channel := some "gaming", data := "hi" } 104 rfl
  exact ⟨h.1.trans (by decide), h.2.1.trans (by decide)⟩

/-- C8: a well-formed inbound message whose `type` is none of the five
recognized discriminants is answered with exactly one `echo` event
wrapping the original payload, sent to the same connection, with no
state change and nothing sent to anyone else. -/
theorem C8_echo (st : ServerState) (cid : Nat) (msg : InMessage) (now : Nat)
    (h1 : msg.type ≠ "subscribe") (h2 : msg.type ≠ "unsubscribe") (h3 : msg.type ≠ "message")
    (h4 : msg.type ≠ "direct") (h5 : msg.type ≠ "ping") :
    handleMessage st cid msg now = (st, [Send.mk cid (Event.echo msg now)]) := by
  simp [handleMessage, h1, h2, h3, h4, h5]

/-- C8 witness: a `type: "hello"` message from connection 1 is echoed
back to connection 1 verbatim. -/
theorem C8_echo_witness :
    handleMessage exServer2 1 { type := "hello" } 106 =
      (exServer2, [Send.mk 1 (Event.echo { type := "hello" } 106)]) :=
  C8_echo exServer2 1 { type := "hello" } 106 (by decide) (by decide) (by decide)
    (by decide) (by decide)

/-- C4 counterexample: with connections 1 and 2 both live subscribers
of `gaming` and the transport write to connection 1 failing, only
connection 2 actually receives the payload, yet the loop's returned
count is 2 — the failing recipient is still counted, so the count does
not equal the number of recipients actually delivered to. -/
theorem C4_count_counterexample :
    (broadcastToChannelF (fun i => decide (i ≠ 1)) exServer2.connections "gaming"
        (Event.channelMessage "gaming" 1 "hi" 104) none).1 = 2 ∧
    (broadcastToChannelF (fun i => decide (i ≠ 1)) exServer2.connections "gaming"
        (Event.channelMessage "gaming" 1 "hi" 104) none).2 =
      [Send.mk 2 (Event.channelMessage "gaming" 1 "hi" 104)] := by
  constructor <;> decide

/-- C4 (amended): during channel fan-out a per-recipient write failure
does not abort delivery to the remaining qualifying recipients — every
qualifying recipient whose own write succeeds receives the payload —
but the returned count includes every qualifying recipient, the failing
ones too (the loop increments unconditionally after the write). -/
theorem C4_best_effort (wOk : Nat → Bool) (conns : List ConnectionInfo) (ch : String)
    (ev : Event) (ex : Option Nat) :
    (broadcastToChannelF wOk conns ch ev ex).1 = (conns.filter (qualifies ch ex)).length ∧
    (broadcastToChannelF wOk conns ch ev ex).2 =
      ((conns.filter (qualifies ch ex)).filter (fun c => wOk c.id)).map
        (fun c => Send.mk c.id ev) ∧
    (∀ c ∈ conns, qualifies ch ex c = true → wOk c.id = true →
      Send.mk c.id ev ∈ (broadcastToChannelF wOk conns ch ev ex).2) := by
  refine ⟨by rw [broadcastToChannelF_eq], by rw [broadcastToChannelF_eq], ?_⟩
  intro c hc hq hw
  rw [broadcastToChannelF_eq]
  exact List.mem_map.mpr
    ⟨c, List.mem_filter.mpr ⟨List.mem_filter.mpr ⟨hc, hq⟩, hw⟩, rfl⟩

/-- C4 witness: in the counterexample scenario, connection 2 (whose
write succeeds) still receives the payload even though the write to
connection 1 failed. -/
theorem C4_best_effort_witness :
    Send.mk 2 (Event.channelMessage "gaming" 1 "hi" 104) ∈
      (broadcastToChannelF (fun i => decide (i ≠ 1)) exServer2.connections "gaming"
        (Event.channelMessage "gaming" 1 "hi" 104) none).2 :=
  (C4_best_effort (fun i => decide (i ≠ 1)) exServer2.connections "gaming"
      (Event.channelMessage "gaming" 1 "hi" 104) none).2.2
    { id := 2, isOpen := true, channels := {some "default", some "gaming"}, connectedAt := 101 }
    (by decide) (by decide) (by decide)

/-- C5 counterexample: connection 1 is registered in `exServer2`; after
the transport reports an error for it, its record is still in the
Registry — the error handler only logs — so `lookup(1)` does not report
not-found, contradicting unconditional removal on transport error. -/
theorem C5_error_counterexample :
    handleError exServer2 1 = exServer2 ∧
    lookupConn (handleError exServer2 1).connections 1 =
      some { id := 1, isOpen := true, channels := {some "default", some "gaming"},
             connectedAt := 100 } := by
  constructor <;> decide

/-- C5 (amended): on the transport reporting closure the record is
removed unconditionally, and after removal `deliverToChannel`,
`deliverDirect`, and `deliverBroadcast` never deliver to that id while
`lookup(id)` reports not-found; a transport error alone leaves the
Registry unchanged. -/
theorem C5_close_removes (st : ServerState) (id : Nat) :
    lookupConn (handleClose st id).connections id = none ∧
    (∀ ch ev ex s, s ∈ (broadcastToChannel (handleClose st id).connections ch ev ex).2 →
      s.target ≠ id) ∧
    (∀ cid d now tid s,
      s ∈ (handleMessage (handleClose st id) cid
            { type := "direct", data := d, targetId := tid } now).2 → s.target ≠ id) ∧
    (∀ chn m now s, s ∈ (apiBroadcast (handleClose st id).connections chn m now).2 →
      s.target ≠ id) := by
  have hid : ∀ c ∈ (handleClose st id).connections, c.id ≠ id := by
    intro c hc
    have := List.of_mem_filter hc
    simpa using this
  refine ⟨?_, ?_, ?_, ?_⟩
  · cases hfind : lookupConn (handleClose st id).connections id with
    | none => rfl
    | some c =>
      have hmem := List.mem_of_find?_eq_some hfind
      have hp := List.find?_some hfind
      exact absurd (by simpa using hp) (hid c hmem)
  · intro ch ev ex s hs
    rcases broadcastToChannel_target_mem _ ch ev ex s hs with ⟨c, hc, hce⟩
    exact hce ▸ hid c hc
  · intro cid d now tid s hs
    simp only [handleMessage] at hs
    norm_num at hs
    cases htl : targetLookup (handleClose st id).connections tid with
    | none => rw [htl] at hs; simp at hs
    | some t =>
      rw [htl] at hs
      have hmem : t ∈ (handleClose st id).connections := by
        cases tid with
        | none => simp [targetLookup] at htl
        | some v => exact List.mem_of_find?_eq_some htl
      by_cases hop : t.isOpen
      · simp [hop] at hs
        rw [hs]
        simpa using hid t hmem
      · simp [hop] at hs
  · intro chn m now s hs
    rcases apiBroadcast_target_mem _ chn m now s hs with ⟨c, hc, hce⟩
    exact hce ▸ hid c hc

/-- C5 witness: after connection 1's transport closes, looking it up in
the Registry reports not-found. -/
theorem C5_close_removes_witness :
    lookupConn (handleClose exServer2 1).connections 1 = none :=
  (C5_close_removes exServer2 1).1

/-- C6: a `direct` message: when the target id is registered and its
socket is open, the payload tagged with the sender's id is delivered to
the target id and to no one else; when the target is unknown or not
open the call is a no-op producing no event at all; the registry state
is never changed. -/
theorem C6_direct (st : ServerState) (cid : Nat) (msg : InMessage) (now : Nat)
    (hty : msg.type = "direct") :
    (handleMessage st cid msg now).1 = st ∧
    (∀ t, targetLookup st.connections msg.targetId = some t → t.isOpen = true →
      (handleMessage st cid msg now).2 =
        [Send.mk t.id (Event.directMessage cid msg.data now)] ∧
      msg.targetId = some t.id) ∧
    (∀ t, targetLookup st.connections msg.targetId = some t → t.isOpen = false →
      (handleMessage st cid msg now).2 = []) ∧
    (targetLookup st.connections msg.targetId = none →
      (handleMessage st cid msg now).2 = []) := by
  have hid : ∀ t, targetLookup st.connections msg.targetId = some t →
      msg.targetId = some t.id := by
    intro t ht
    cases htid : msg.targetId with
    | none => rw [htid] at ht; simp [targetLookup] at ht
    | some v =>
      rw [htid] at ht
      simp only [targetLookup, lookupConn] at ht
      have hp := List.find?_some ht
      have hv : t.id = v := by simpa using hp
      rw [hv]
  cases htl : targetLookup st.connections msg.targetId with
  | none =>
    refine ⟨by simp [handleMessage, hty, htl], ?_, ?_,
      fun _ => by simp [handleMessage, hty, htl]⟩
    · intro t ht; exact Option.noConfusion ht
    · intro t ht _; exact Option.noConfusion ht
  | some t0 =>
    refine ⟨?_, ?_, ?_, ?_⟩
    · cases hop : t0.isOpen <;> simp [handleMessage, hty, htl, hop]
    · intro t ht hop
      have he : t0 = t := Option.some.inj ht
      subst he
      exact ⟨by simp [handleMessage, hty, htl, hop], hid t0 htl⟩
    · intro t ht hop
      have he : t0 = t := Option.some.inj ht
      subst he
      simp [handleMessage, hty, htl, hop]
    · intro h; exact Option.noConfusion h

/-- C6 witness: connection 1 sends a direct message to the live
connection 2; exactly one `direct_message` tagged `from: 1` is written,
to connection 2's socket. -/
theorem C6_direct_witness :
    (handleMessage exServer2 1 { type := "direct", data := "x", targetId := some 2 } 105).2 =
      [Send.mk 2 (Event.directMessage 1 "x" 105)] :=
  ((C6_direct exServer2 1 { type := "direct", data := "x", targetId := some 2 } 105 rfl).2.1
    { id := 2, isOpen := true, channels := {some "default", some "gaming"}, connectedAt := 101 }
    (by decide) (by decide)).1

/-- Pointwise-fixed maps do not change a list. -/
theorem map_fix_eq_self {α : Type} (l : List α) (f : α → α) (h : ∀ a ∈ l, f a = a) :
    l.map f = l := by
  conv_rhs => rw [← List.map_id l]
  exact List.map_congr_left h

/-- C7: unsubscribing from a channel is acknowledged with an
`unsubscribed` event carrying the channel, sent to the acting
connection alone, whether or not the channel was in its set; when the
channel is absent the registry is left completely unchanged
(idempotence).  The Nodup hypothesis is the JS `Map` key-uniqueness. -/
theorem C7_unsubscribe (st : ServerState) (cid : Nat) (msg : InMessage) (now : Nat)
    (conn : ConnectionInfo) (hty : msg.type = "unsubscribe")
    (hconn : lookupConn st.connections cid = some conn) :
    (handleMessage st cid msg now).2 = [Send.mk cid (Event.unsubscribed msg.channel now)] ∧
    ((st.connections.map (fun c => c.id)).Nodup → msg.channel ∉ conn.channels →
      (handleMessage st cid msg now).1 = st) := by
  constructor
  · simp [handleMessage, hty, hconn]
  · intro hnd hnm
    have hmem : conn ∈ st.connections := List.mem_of_find?_eq_some hconn
    have hcid : conn.id = cid := by simpa using List.find?_some hconn
    have hupd : updateConn st.connections cid
        (fun c => { c with channels := c.channels.erase msg.channel }) = st.connections := by
      unfold updateConn
      refine map_fix_eq_self _ _ ?_
      intro a ha
      by_cases h : a.id = cid
      · have he : conn = a := List.inj_on_of_nodup_map hnd hmem ha (by rw [hcid, h])
        subst he
        rw [if_pos h]
        show ({ conn with channels := conn.channels.erase msg.channel } : ConnectionInfo) = conn
        rw [Finset.erase_eq_of_not_mem hnm]
      · rw [if_neg h]
    simp [handleMessage, hty, hconn, hupd]

/-- C7 witness: connection 1, subscribed only to `default`,
unsubscribes from the absent channel `news`: it alone gets the
`unsubscribed` ack and the state is unchanged. -/
theorem C7_unsubscribe_witness :
    (handleMessage exServer1 1 { type := "unsubscribe", channel := some "news" } 107).2 =
      [Send.mk 1 (Event.unsubscribed (some "news") 107)] ∧
    (handleMessage exServer1 1 { type := "unsubscribe", channel := some "news" } 107).1 =
      exServer1 := by
  have h := C7_unsubscribe exServer1 1 { type := "unsubscribe", channel := some "news" } 107
    { id := 1, isOpen := true, channels := {some "default"}, connectedAt := 100 } rfl (by decide)
  exact ⟨h.1, h.2 (by decide) (by decide)⟩

/-- C10: a `subscribe` or `unsubscribe` event may change only the
acting connection's own channel set: the id counter and the list of
registered ids are unchanged, every record keeps its id, liveness and
creation time, and every record whose id differs from the actor is
unchanged entirely. -/
theorem C10_frame (st : ServerState) (cid : Nat) (msg : InMessage) (now : Nat)
    (hty : msg.type = "subscribe" ∨ msg.type = "unsubscribe") :
    (handleMessage st cid msg now).1.counter = st.counter ∧
    (handleMessage st cid msg now).1.connections.map (fun c => c.id) =
      st.connections.map (fun c => c.id) ∧
    List.Forall₂
      (fun c c' => c'.id = c.id ∧ c'.isOpen = c.isOpen ∧ c'.connectedAt = c.connectedAt ∧
        (c.id ≠ cid → c' = c))
      st.connections (handleMessage st cid msg now).1.connections := by
  have key : (handleMessage st cid msg now).1 = st ∨
      ∃ f : ConnectionInfo → ConnectionInfo,
        (∀ c, (f c).id = c.id ∧ (f c).isOpen = c.isOpen ∧ (f c).connectedAt = c.connectedAt) ∧
        (handleMessage st cid msg now).1 =
          { st with connections := updateConn st.connections cid f } := by
    rcases hty with h | h
    · cases hc : lookupConn st.connections cid with
      | none => left; simp [handleMessage, h, hc]
      | some c0 =>
        right
        exact ⟨fun c => { c with channels := insert msg.channel c.channels },
          fun c => ⟨rfl, rfl, rfl⟩, by simp [handleMessage, h, hc]⟩
    · cases hc : lookupConn st.connections cid with
      | none => left; simp [handleMessage, h, hc]
      | some c0 =>
        right
        exact ⟨fun c => { c with channels := c.channels.erase msg.channel },
          fun c => ⟨rfl, rfl, rfl⟩, by simp [handleMessage, h, hc]⟩
  rcases key with hk | ⟨f, hf, hk⟩
  · rw [hk]
    exact ⟨rfl, rfl, List.forall₂_same.mpr fun c _ => ⟨rfl, rfl, rfl, fun _ => rfl⟩⟩
  · rw [hk]
    refine ⟨rfl, ?_, ?_⟩
    · show (updateConn st.connections cid f).map (fun c => c.id) = _
      unfold updateConn
      rw [List.map_map]
      refine List.map_congr_left ?_
      intro a _
      by_cases h : a.id = cid <;> simp [Function.comp, h, (hf a).1]
    · show List.Forall₂ _ st.connections (updateConn st.connections cid f)
      unfold updateConn
      refine List.forall₂_map_right_iff.mpr ?_
      refine List.forall₂_same.mpr ?_
      intro a _
      by_cases h : a.id = cid
      · rw [if_pos h]
        exact ⟨(hf a).1, (hf a).2.1, (hf a).2.2, fun hne => absurd h hne⟩
      · rw [if_neg h]
        exact ⟨rfl, rfl, rfl, fun _ => rfl⟩

/-- C10 witness: connection 1 subscribing to `news` in the
two-connection registry leaves the registered id list unchanged. -/
theorem C10_frame_witness :
    (handleMessage exServer2 1 { type := "subscribe", channel := some "news" } 102).1.connections.map
        (fun c => c.id) =
      exServer2.connections.map (fun c => c.id) :=
  (C10_frame exServer2 1 { type := "subscribe", channel := some "news" } 102 (Or.inl rfl)).2.1
